import Mathlib

/-!
Shallow embedding of `cloudwatch_dump.py` (nikw/cloudwatch-dump).

Conventions of the embedding:
* Timestamps are instants measured in epoch seconds (`Int`).  The repository's
  `RichDateTime` helper lives in `util.py`, which is not part of the sources;
  where its behaviour matters it is modelled from the spec and marked as such.
* Python dictionaries that the program only iterates or looks up are modelled
  as association lists, preserving insertion order.
* API clients (boto CloudWatch / EC2, influxdb) are modelled as explicit
  environment arguments; the calls the program makes are recorded as events.
-/

namespace CloudwatchDump

/-- A dimension value of a boto metric: the Python code stores either a plain
string or a list of strings (duck-typed), and iterates the value either way. -/
inductive DimValue where
  | str (s : String)
  | lst (l : List String)
deriving DecidableEq

/-- A metric descriptor as used by `cloudwatch_dump.py`: the region of the
owning connection (`metric.connection.region.name`), the namespace (a Lean
keyword, hence the field name `nspace`), the metric name and the dimension
dictionary. -/
structure Metric where
  region : String
  nspace : String
  name : String
  dimensions : List (String × DimValue)
deriving DecidableEq

/-- Python `sep.join(parts)`. -/
def join_str (sep : String) : List String → String
  | [] => ""
  | [a] => a
  | a :: rest => a ++ sep ++ join_str sep rest

/-- Python `s.split('/')` (line 55): splitting on a single character keeps
empty fragments, exactly as `List.splitOn` does on the character list. -/
def split_slash (s : String) : List String :=
  (s.data.splitOn '/').map String.mk

/-- Python `ec2_names.get(s, s)` (line 58): dictionary lookup with the key
itself as default. -/
def resolve_name (ec2_names : List (String × String)) (s : String) : String :=
  (ec2_names.lookup s).getD s

/-- Python `t.replace('/', '_')` (line 58): replacing one character by one
character is a character map. -/
def repl_slash (s : String) : String :=
  String.mk (s.data.map (fun c => if c = '/' then '_' else c))

/-- One element of the generator on line 58:
`'root' if s == '/' else ec2_names.get(s, s).replace('/', '_')`. -/
def dim_token (ec2_names : List (String × String)) (s : String) : String :=
  if s = "/" then "root" else repl_slash (resolve_name ec2_names s)

/-- Iterating a dimension value `x[1]` in Python (line 58): a list yields its
elements; a plain string yields its characters as one-character strings. -/
def dim_values : DimValue → List String
  | DimValue.str v => v.data.map (fun c => String.mk [c])
  | DimValue.lst l => l

/-- Insertion step of `sorted(metric.dimensions.items())`: dictionary keys are
unique, so sorting the item pairs orders them by key. -/
def insert_dim (p : String × DimValue) :
    List (String × DimValue) → List (String × DimValue)
  | [] => [p]
  | q :: rest => if p.1 < q.1 then p :: q :: rest else q :: insert_dim p rest

/-- Python `sorted(metric.dimensions.items())` (line 56). -/
def sorted_dims (l : List (String × DimValue)) : List (String × DimValue) :=
  l.foldr insert_dim []

/-- `metric_to_tag` (lines 48-60): region, statistics, the namespace split on
`/`, the dimension tokens in key order, and the metric name, joined with dots. -/
def metric_to_tag (metric : Metric) (statistics : String)
    (ec2_names : List (String × String)) : String :=
  join_str "."
    ([metric.region, statistics] ++ split_slash metric.nspace ++
      (sorted_dims metric.dimensions).flatMap
        (fun x => (dim_values x.2).map (dim_token ec2_names)) ++
      [metric.name])

/-- Modelled from the spec: `RichDateTime` lives in `util.py`, which is not in
the sources.  Instants are epoch seconds; `to_utc` and `to_local` change only
the timezone presentation of an instant, so on instants they are the
identity. -/
def to_utc (t : Int) : Int := t

/-- Modelled from the spec: `RichDateTime.__mod__` against an interval
truncates a time to the most recent interval boundary, i.e.
`now - (now mod interval)` (`util.py` is not in the sources). -/
def rich_mod (t : Int) (ivl : Int) : Int := t - t % ivl

/-- `get_time_range` (lines 13-24).  `d = timedelta(minutes=interval)` is
`interval * 60` seconds.  With an explicit time string the window starts at
the parsed local time; `strptime` belongs to the missing `RichDateTime`
(`util.py`), so the parse is the environment function `parse_local`.  Without
one, the start is `(now % d) - d` and the window is `(t, t + d)`. -/
def get_time_range (time_str : Option String) (interval : Int) (now : Int)
    (parse_local : String → Int) : Int × Int :=
  let d := interval * 60
  let t := match time_str with
    | some s => parse_local s
    | none => rich_mod now d - d
  (t, t + d)

/-- One page of a `list_metrics` response: the returned metrics and the
`next_token` attribute (`None` is modelled as `Option.none`). -/
structure Page where
  items : List Metric
  next_token : Option String
deriving DecidableEq

/-- The pagination loop of `get_metrics` (lines 34-45): each `list_metrics`
request returns the next page of the environment; `buf` accumulates the items
and the loop breaks when a response carries no `next_token`.  The second
component counts the `list_metrics` requests issued. -/
def get_metrics_loop : List Page → List Metric × Nat
  | [] => ([], 0)
  | p :: rest =>
    if p.next_token.isSome then
      let r := get_metrics_loop rest
      (p.items ++ r.1, r.2 + 1)
    else
      (p.items, 1)

/-- `get_metrics` (lines 27-45), with the paginated server modelled as the
list of pages it would serve in request order. -/
def get_metrics (pages : List Page) : List Metric × Nat :=
  get_metrics_loop pages

/-- A well-formed page chain: at least one page is served, every page except
the last carries a continuation token, and the last does not. -/
def pages_chain_ok : List Page → Bool
  | [] => false
  | [p] => p.next_token.isNone
  | p :: q :: rest => p.next_token.isSome && pages_chain_ok (q :: rest)

/-- Failure modes of `influxdb.InfluxDBClient.create_database`:
`InfluxDBClientError` (any 4xx client error, whatever its reason — "database
already exists" is one possible reason among others), `InfluxDBServerError`,
or a connection-level error. -/
inductive InfluxError where
  | clientError (reason : String)
  | serverError (reason : String)
  | connectionError (reason : String)
deriving DecidableEq

/-- The guarded create-database call of `main` (lines 220-223):
`try: client.create_database(...) except influxdb.exceptions.InfluxDBClientError: pass`.
The input is the outcome of the call (`none` = success); the output is the
error that escapes the `try` block, if any. -/
def create_database_step (result : Option InfluxError) : Option InfluxError :=
  match result with
  | some (InfluxError.clientError _) => none
  | r => r

/-- Rendering of an uncaught create-database error for the run's failure
message. -/
def influx_message : InfluxError → String
  | InfluxError.clientError r => r
  | InfluxError.serverError r => r
  | InfluxError.connectionError r => r

/-- One record of the `json_body` handed to `client.write_points`
(lines 124-138).  Tag dictionaries are association lists in insertion order;
the field value keeps the datapoint's value type. -/
structure WriteRecord (α : Type) where
  measurement : String
  tags : List (String × String)
  time : Int
  fields : List (String × α)
deriving DecidableEq

variable {α : Type}

/-- `write_data_to_influxdb` (lines 106-139), returning the list of
`write_points` batches it submits (one single-record batch per dimension key
of the metric, in dictionary order).  The datapoint is `(m, s, v, t)` with `t`
the timestamp in epoch seconds (`t.epoch()` of the missing `RichDateTime` is
the identity on the epoch-seconds model).  `ec2_names` is accepted but never
used by the source function; the `debug` branch (dead in `main`, which always
passes `False`) only prints and issues no writes, so it contributes no
batches. -/
def write_data_to_influxdb (region : String) (data : Metric × String × α × Int)
    (ec2_names : List (String × String)) (debug : Bool) :
    List (List (WriteRecord α)) :=
  match data with
  | (m, s, v, t) =>
    m.dimensions.map (fun d =>
      [⟨m.name,
        [("statistic", s), ("namespace", m.nspace), ("region", region),
         (d.1, join_str "." (dim_values d.2))],
        t,
        [("value", v)]⟩])

/-- The command-line options produced by `parse_args` (lines 141-182), with
their source defaults: region "us-east-1", no explicit time, interval 60,
period 5, resolve and check off, output "graphite-text", database
"cloudwatch". -/
structure Options where
  region : String
  time : Option String
  interval : Int
  period : Int
  resolve : Bool
  check : Bool
  output : String
  influxdb_database : String
deriving DecidableEq

/-- The statistics list hard-coded at the top of `main` (line 189). -/
def statistics_list : List String := ["Average", "Sum"]

/-- Observable actions of a run: a CloudWatch statistics query
(`metric.query`, line 68), a printed line, a printed text-sink line
(`print_data`, line 104, kept structured because the `%.10f` float rendering
is outside the model), a `create_database` call and a `write_points` call. -/
inductive Event (α : Type) where
  | statQuery (m : Metric) (statistics : String) (startUtc endUtc : Int)
      (period : Int)
  | printLine (s : String)
  | textPoint (tag : String) (v : α) (epochSec : Int)
  | createDatabase (db : String)
  | writePoints (batch : List (WriteRecord α))
deriving DecidableEq

/-- The statistics query performed by an event, if it is one. -/
def query_of : Event α → Option (Metric × String)
  | Event.statQuery m s _ _ _ => some (m, s)
  | _ => none

/-- The (metric, statistic) pairs queried along a trace, in order. -/
def query_pairs (es : List (Event α)) : List (Metric × String) :=
  es.filterMap query_of

/-- Whether an event is a plain printed line. -/
def is_print_line : Event α → Bool
  | Event.printLine _ => true
  | _ => false

/-- `get_metric_statistics` (lines 63-75): issues one query over the window
converted to UTC and maps every returned raw datapoint `(value, timestamp)`
to the tuple `(metric, statistics, value, local timestamp)`; on the
epoch-seconds model the UTC-to-local conversion of an instant is the
identity.  The `unit` argument is always `None` at the call site (line 85)
and is omitted.  The environment `responses` provides the raw datapoints of
each (metric, statistic) query. -/
def get_metric_statistics (m : Metric) (start_time end_time : Int)
    (statistics : String) (period : Int)
    (responses : Metric → String → List (α × Int)) :
    Event α × List (Metric × String × α × Int) :=
  (Event.statQuery m statistics (to_utc start_time) (to_utc end_time) period,
   (responses m statistics).map (fun dp => (m, statistics, dp.1, dp.2)))

/-- `timedelta(minutes=m).seconds` as used on line 85 (`p.seconds`): Python
normalizes a timedelta into whole days plus a seconds field in
`[0, 86400)`, so `.seconds` is `(m * 60) mod 86400`, not the total duration
in seconds. -/
def timedelta_seconds (minutes : Int) : Int := (minutes * 60).emod 86400

/-- The `params` generator of `get_data` (lines 83-85): the cross product of
metrics (outer) and statistics (inner), each paired with the window and the
period `p.seconds`. -/
def get_data_params (metrics : List Metric) (stats : List String)
    (start end_ : Int) (period_in_min : Int) :
    List (Metric × Int × Int × String × Int) :=
  metrics.flatMap (fun m =>
    stats.map (fun s => (m, start, end_, s, timedelta_seconds period_in_min)))

/-- The trace of the data loop of `main` (lines 215-216 / 224-225): for every
parameter tuple of `get_data` (line 86) one statistics query, followed by the
sink events of each datapoint the query returned. -/
def run_queries (sink : Metric × String × α × Int → List (Event α))
    (metrics : List Metric) (stats : List String) (start end_ : Int)
    (period_in_min : Int) (responses : Metric → String → List (α × Int)) :
    List (Event α) :=
  (get_data_params metrics stats start end_ period_in_min).flatMap (fun p =>
    (get_metric_statistics p.1 p.2.1 p.2.2.1 p.2.2.2.1 p.2.2.2.2 responses).1 ::
    (get_metric_statistics p.1 p.2.1 p.2.2.1 p.2.2.2.1 p.2.2.2.2
        responses).2.flatMap sink)

/-- `main` (lines 185-228) as a trace function.  Environment: the pages the
metrics catalog serves, the EC2 name table `get_ec2_names` would build, the
outcome of the influxdb `create_database` call, the raw datapoints of each
statistics query, the local-time parse of the missing `RichDateTime.strptime`
and the current time.  Result: the event trace and, when the run raises, the
uncaught error message (`none` means `main` returns 0).  String rendering of
`%s`-interpolated values is modelled by `toString`. -/
def main (opts : Options) (pages : List Page)
    (ec2_env : List (String × String)) (create_result : Option InfluxError)
    (responses : Metric → String → List (α × Int))
    (parse_local : String → Int) (now : Int) :
    List (Event α) × Option String :=
  let tr := get_time_range opts.time opts.interval now parse_local
  let start := tr.1
  let end_ := tr.2
  let metrics := (get_metrics pages).1
  let pairs := metrics.flatMap (fun m => statistics_list.map (fun s => (m, s)))
  let ec2_names := if opts.resolve then ec2_env else []
  if opts.check then
    ([Event.printLine ("start : " ++ toString start),
      Event.printLine ("end   : " ++ toString end_),
      Event.printLine ("period: " ++ toString opts.period ++ " min"),
      Event.printLine ("ec2 names: " ++ toString ec2_names)] ++
      pairs.map (fun q =>
        Event.printLine ("will collect metric: " ++
          metric_to_tag q.1 q.2 ec2_names)),
     none)
  else if opts.output = "graphite-text" then
    (run_queries
      (fun dp =>
        [Event.textPoint (metric_to_tag dp.1 dp.2.1 ec2_names) dp.2.2.1
          dp.2.2.2])
      metrics statistics_list start end_ opts.period responses,
     none)
  else if opts.output = "influxdb" then
    match create_database_step create_result with
    | some e =>
      ([Event.createDatabase opts.influxdb_database], some (influx_message e))
    | none =>
      (Event.createDatabase opts.influxdb_database ::
        run_queries
          (fun dp =>
            (write_data_to_influxdb opts.region dp ec2_names false).map
              Event.writePoints)
          metrics statistics_list start end_ opts.period responses,
       none)
  else
    ([], some "Invalid output option")

/-- The example metric of the spec: namespace `AWS/EC2`, one dimension
`InstanceId -> ["i-1234"]`, name `CPUUtilization`, owned by `us-east-1`. -/
def ex_metric : Metric :=
  ⟨"us-east-1", "AWS/EC2", "CPUUtilization",
    [("InstanceId", DimValue.lst ["i-1234"])]⟩

/-- A metric whose single dimension value is the plain string "ab". -/
def m_str_ab : Metric := ⟨"r", "NS", "M", [("k", DimValue.str "ab")]⟩

/-- The same metric with the value as the one-element list ["ab"]. -/
def m_lst_ab : Metric := ⟨"r", "NS", "M", [("k", DimValue.lst ["ab"])]⟩

/-- A resolution table whose resolved name contains a dot. -/
def tbl_ab : List (String × String) := [("ab", "a.b")]

/-- A three-page catalog chained by tokens A then B then no token. -/
def ex_pages : List Page :=
  [⟨[⟨"us-east-1", "AWS/EC2", "m1", []⟩], some "A"⟩,
   ⟨[⟨"us-east-1", "AWS/EC2", "m2", []⟩], some "B"⟩,
   ⟨[⟨"us-east-1", "AWS/ELB", "m3", []⟩], none⟩]

/-- Options of a check-mode run, otherwise the source defaults. -/
def opts_check : Options :=
  ⟨"us-east-1", none, 60, 5, false, true, "graphite-text", "cloudwatch"⟩

/-- Options of a plain text-output run, the source defaults. -/
def opts_text : Options :=
  ⟨"us-east-1", none, 60, 5, false, false, "graphite-text", "cloudwatch"⟩

/-- A query environment returning no datapoints, with value type Nat. -/
def ex_responses : Metric → String → List (Nat × Int) := fun _ _ => []

/-- Length of a dot-joined nonempty list: the sum of the component lengths
plus one separator between consecutive components. -/
theorem join_str_dot_length :
    ∀ l : List String, l ≠ [] →
      (join_str "." l).length + 1 = (l.map String.length).sum + l.length
  | [], h => absurd rfl h
  | [a], _ => by simp [join_str]
  | a :: b :: r, _ => by
    have ih := join_str_dot_length (b :: r) (by simp)
    have hdot : ("." : String).length = 1 := rfl
    show (a ++ "." ++ join_str "." (b :: r)).length + 1 = _
    rw [String.length_append, String.length_append]
    simp only [List.map_cons, List.sum_cons, List.length_cons] at ih ⊢
    omega

/-- The tag component of a one-character dimension value under an empty
resolution table: `root` (four characters) for the slash, the character
itself otherwise. -/
theorem dim_token_char_length (c : Char) :
    (dim_token [] (String.mk [c])).length = if c = '/' then 4 else 1 := by
  by_cases h : c = '/'
  · subst h
    decide
  · have hne : String.mk [c] ≠ "/" := by
      intro hmk
      exact h (by simpa using congrArg String.data hmk)
    rw [dim_token, if_neg hne, if_neg h]
    rfl

/-- Each character of a string dimension value contributes a component of
length at least one. -/
theorem char_tokens_length_le (l : List Char) :
    l.length ≤ (l.map (fun c => (dim_token [] (String.mk [c])).length)).sum := by
  induction l with
  | nil => simp
  | cons c r ih =>
    have hc : 1 ≤ (dim_token [] (String.mk [c])).length := by
      rw [dim_token_char_length]
      by_cases h : c = '/' <;> simp [h]
    simp only [List.map_cons, List.sum_cons, List.length_cons]
    omega

/-- The tag of a metric with a single dimension entry, written directly. -/
theorem metric_to_tag_single (r ns nm k stat : String) (dv : DimValue)
    (names : List (String × String)) :
    metric_to_tag ⟨r, ns, nm, [(k, dv)]⟩ stat names =
      join_str "."
        ([r, stat] ++ split_slash ns ++ (dim_values dv).map (dim_token names)
          ++ [nm]) := by
  simp [metric_to_tag, sorted_dims, insert_dim]

/-- Claim C1 (code bug): `get_data` passes `timedelta(minutes=p).seconds` as
the period, which is `(p * 60) mod 86400`, not `p * 60`: at
`period_in_min = 1440` every statistics query is issued with period 0
seconds instead of 86400. -/
theorem get_data_period_bug :
    timedelta_seconds 1440 = 0 ∧
    timedelta_seconds 1440 ≠ 1440 * 60 ∧
    (get_data_params [ex_metric] ["Average"] 0 3600 1440).map
      (fun p => p.2.2.2.2) = [0] :=
  ⟨by decide, by decide, by decide⟩

/-- Claim C2 (amended): the guarded create-database call of `main` ignores
every `InfluxDBClientError` whatever its reason, and surfaces failures of any
other kind (server errors, connection errors). -/
theorem create_database_error_handling (r : String) :
    create_database_step none = none ∧
    create_database_step (some (InfluxError.clientError r)) = none ∧
    create_database_step (some (InfluxError.serverError r)) =
      some (InfluxError.serverError r) ∧
    create_database_step (some (InfluxError.connectionError r)) =
      some (InfluxError.connectionError r) :=
  ⟨rfl, rfl, rfl, rfl⟩

/-- Witness for the amended C2 at the already-exists reason string. -/
theorem create_database_error_handling_witness :
    create_database_step none = none ∧
    create_database_step
        (some (InfluxError.clientError "database already exists")) = none ∧
    create_database_step
        (some (InfluxError.serverError "database already exists")) =
      some (InfluxError.serverError "database already exists") ∧
    create_database_step
        (some (InfluxError.connectionError "database already exists")) =
      some (InfluxError.connectionError "database already exists") :=
  create_database_error_handling "database already exists"

/-- Claim C2 counterexample: a creation failure with a cause other than
"database already exists" — here an authorization failure, still an
`InfluxDBClientError` — is swallowed rather than surfaced, so the claim that
exactly the already-exists failure is ignored is false. -/
theorem create_database_swallows_other_causes :
    create_database_step
        (some (InfluxError.clientError "401: authorization failed")) = none ∧
    "401: authorization failed" ≠ "database already exists" :=
  ⟨rfl, by decide⟩

/-- Claim C3: the example metric formats to exactly
`us-east-1.Average.AWS.EC2.i-1234.CPUUtilization` with an empty resolution
table, and to `us-east-1.Average.AWS.EC2.web-1.CPUUtilization` with the table
mapping i-1234 to web-1. -/
theorem metric_to_tag_example :
    metric_to_tag ex_metric "Average" [] =
      "us-east-1.Average.AWS.EC2.i-1234.CPUUtilization" ∧
    metric_to_tag ex_metric "Average" [("i-1234", "web-1")] =
      "us-east-1.Average.AWS.EC2.web-1.CPUUtilization" :=
  ⟨by decide, by decide⟩

/-- Claim C4: a dimension value equal to the isolated separator `/` renders
as the literal token `root`; any other value renders as the resolved name
with every `/` replaced by `_`; either way the resulting tag component
contains no slash. -/
theorem dim_token_sanitizes (names : List (String × String)) (s : String)
    (h : s ≠ "/") :
    dim_token names "/" = "root" ∧
    (dim_token names s).data =
      (resolve_name names s).data.map (fun c => if c = '/' then '_' else c) ∧
    '/' ∉ (dim_token names s).data ∧
    '/' ∉ (dim_token names "/").data := by
  have hroot : dim_token names "/" = "root" := by simp [dim_token]
  refine ⟨hroot, ?_, ?_, by rw [hroot]; decide⟩
  · rw [dim_token, if_neg h, repl_slash]
  · rw [dim_token, if_neg h, repl_slash]
    intro hmem
    rcases List.mem_map.mp hmem with ⟨c, _, hc⟩
    by_cases h2 : c = '/' <;> simp [h2] at hc

/-- Witness for C4 at the spec's example value `a/b`. -/
theorem dim_token_sanitizes_witness :
    ("a/b" : String) ≠ "/" ∧
    (dim_token [] "/" = "root" ∧
     (dim_token [] "a/b").data =
       (resolve_name [] "a/b").data.map (fun c => if c = '/' then '_' else c) ∧
     '/' ∉ (dim_token [] "a/b").data ∧
     '/' ∉ (dim_token [] "/").data) :=
  ⟨by decide, dim_token_sanitizes [] "a/b" (by decide)⟩

/-- Claim C5: without an explicit time string the window has width exactly
`interval` minutes and ends at or before now (its end is now truncated to the
most recent interval boundary). -/
theorem get_time_range_auto_window (now interval : Int)
    (parse_local : String → Int) (h : 0 < interval) :
    (get_time_range none interval now parse_local).2 -
        (get_time_range none interval now parse_local).1 = interval * 60 ∧
    (get_time_range none interval now parse_local).2 ≤ now := by
  have h60 : (0 : Int) < interval * 60 := by positivity
  have hm := Int.emod_nonneg now (show interval * 60 ≠ 0 by omega)
  constructor
  · simp [get_time_range]
  · simp only [get_time_range, rich_mod]
    omega

/-- Witness for C5 at now = 12345 epoch seconds and a 60-minute interval. -/
theorem get_time_range_auto_window_witness :
    (0 : Int) < 60 ∧
    ((get_time_range none 60 12345 (fun _ => 0)).2 -
        (get_time_range none 60 12345 (fun _ => 0)).1 = 60 * 60 ∧
     (get_time_range none 60 12345 (fun _ => 0)).2 ≤ 12345) :=
  ⟨by decide, get_time_range_auto_window 12345 60 (fun _ => 0) (by decide)⟩

/-- The pagination loop on a page that carries a continuation token: request
the page, keep its items, and continue. -/
theorem get_metrics_loop_cons_some (p : Page) (rest : List Page)
    (h : p.next_token.isSome = true) :
    get_metrics_loop (p :: rest) =
      (p.items ++ (get_metrics_loop rest).1, (get_metrics_loop rest).2 + 1) := by
  simp [get_metrics_loop, h]

/-- The pagination loop on a page without a continuation token: request the
page, keep its items, and stop. -/
theorem get_metrics_loop_cons_none (p : Page) (rest : List Page)
    (h : p.next_token = none) :
    get_metrics_loop (p :: rest) = (p.items, 1) := by
  simp [get_metrics_loop, h]

/-- Claim C6: over a well-formed page chain, `get_metrics` returns the
concatenation of all pages' items in page order and issues exactly one
`list_metrics` request per page, stopping at the first response without a
continuation token. -/
theorem get_metrics_pagination (pages : List Page)
    (h : pages_chain_ok pages = true) :
    (get_metrics pages).1 = (pages.map Page.items).flatten ∧
    (get_metrics pages).2 = pages.length := by
  induction pages with
  | nil => simp [pages_chain_ok] at h
  | cons p rest ih =>
    cases rest with
    | nil =>
      simp only [pages_chain_ok, Option.isNone_iff_eq_none] at h
      simp only [get_metrics]
      rw [get_metrics_loop_cons_none p [] h]
      simp
    | cons q r2 =>
      simp only [pages_chain_ok, Bool.and_eq_true] at h
      have ihr := ih h.2
      simp only [get_metrics] at ihr ⊢
      rw [get_metrics_loop_cons_some p (q :: r2) h.1]
      constructor
      · simp [ihr.1]
      · simp [ihr.2]

/-- Witness for C6: three pages chained by tokens A then B then none yield
the concatenation of the three pages' items and exactly three requests. -/
theorem get_metrics_pagination_witness :
    pages_chain_ok ex_pages = true ∧
    ((get_metrics ex_pages).1 = (ex_pages.map Page.items).flatten ∧
     (get_metrics ex_pages).2 = ex_pages.length) :=
  ⟨by decide, get_metrics_pagination ex_pages (by decide)⟩

/-- Claim C8: a datapoint whose metric has exactly two dimension keys makes
exactly two `write_points` calls, one per dimension key, each a single record
with measurement = metric name, the shared statistic/namespace/region tags
plus that key's own dimension tag (value(s) joined by dots), the epoch-second
timestamp and the single field value. -/
theorem write_data_two_dimensions (region r ns nm k1 k2 : String)
    (d1 d2 : DimValue) (names : List (String × String)) (s : String) (v : α)
    (t : Int) (hk : k1 ≠ k2) :
    write_data_to_influxdb region
        ((⟨r, ns, nm, [(k1, d1), (k2, d2)]⟩ : Metric), s, v, t) names false =
      [[⟨nm,
         [("statistic", s), ("namespace", ns), ("region", region),
          (k1, join_str "." (dim_values d1))],
         t, [("value", v)]⟩],
       [⟨nm,
         [("statistic", s), ("namespace", ns), ("region", region),
          (k2, join_str "." (dim_values d2))],
         t, [("value", v)]⟩]] := rfl

/-- Witness for C8 on a concrete two-dimension datapoint. -/
theorem write_data_two_dimensions_witness :
    ("InstanceId" : String) ≠ "AvailabilityZone" ∧
    write_data_to_influxdb "us-east-1"
        ((⟨"us-east-1", "AWS/EC2", "CPUUtilization",
           [("InstanceId", DimValue.lst ["i-1234"]),
            ("AvailabilityZone", DimValue.lst ["us-east-1a"])]⟩ : Metric),
         "Average", (7 : Nat), (1700000000 : Int)) [] false =
      [[⟨"CPUUtilization",
         [("statistic", "Average"), ("namespace", "AWS/EC2"),
          ("region", "us-east-1"),
          ("InstanceId", join_str "." (dim_values (DimValue.lst ["i-1234"])))],
         1700000000, [("value", 7)]⟩],
       [⟨"CPUUtilization",
         [("statistic", "Average"), ("namespace", "AWS/EC2"),
          ("region", "us-east-1"),
          ("AvailabilityZone",
           join_str "." (dim_values (DimValue.lst ["us-east-1a"])))],
         1700000000, [("value", 7)]⟩]] :=
  ⟨by decide,
   write_data_two_dimensions "us-east-1" "us-east-1" "AWS/EC2"
     "CPUUtilization" "InstanceId" "AvailabilityZone"
     (DimValue.lst ["i-1234"]) (DimValue.lst ["us-east-1a"]) [] "Average" 7
     1700000000 (by decide)⟩

/-- Claim C9 counterexample: with a resolution table mapping "ab" to "a.b",
the two-character plain-string dimension value "ab" yields exactly the same
tag as the corresponding one-element list ["ab"], so it is not true that only
a single-character string value can coincide with its one-element list. -/
theorem metric_to_tag_string_collision :
    metric_to_tag m_str_ab "Average" tbl_ab =
      metric_to_tag m_lst_ab "Average" tbl_ab ∧
    ("ab" : String).length ≠ 1 :=
  ⟨by decide, by decide⟩

/-- Claim C9 (amended): a plain-string dimension value is iterated character
by character — it formats exactly as the list of its one-character strings,
each character independently name-resolved and slash-sanitized — and with an
empty resolution table only a single-character string value yields the same
tag as the corresponding one-element list. -/
theorem metric_to_tag_string_chars (r ns nm k stat v : String)
    (names : List (String × String)) :
    metric_to_tag ⟨r, ns, nm, [(k, DimValue.str v)]⟩ stat names =
      metric_to_tag
        ⟨r, ns, nm, [(k, DimValue.lst (v.data.map (fun c => String.mk [c])))]⟩
        stat names ∧
    (metric_to_tag ⟨r, ns, nm, [(k, DimValue.str v)]⟩ stat [] =
        metric_to_tag ⟨r, ns, nm, [(k, DimValue.lst [v])]⟩ stat [] ↔
      v.length = 1) := by
  constructor
  · rfl
  · constructor
    · intro heq
      by_cases hv : v = "/"
      · subst hv
        decide
      · have hE := congrArg String.length heq
        rw [metric_to_tag_single, metric_to_tag_single] at hE
        have hL := join_str_dot_length
          ([r, stat] ++ split_slash ns ++
            (dim_values (DimValue.str v)).map (dim_token []) ++ [nm])
          (by simp)
        have hR := join_str_dot_length
          ([r, stat] ++ split_slash ns ++
            (dim_values (DimValue.lst [v])).map (dim_token []) ++ [nm])
          (by simp)
        have hK := char_tokens_length_le v.data
        have hT : (dim_token [] v).length = v.data.length := by
          rw [dim_token, if_neg hv]
          show ((resolve_name [] v).data.map
            (fun c => if c = '/' then '_' else c)).length = v.data.length
          rw [List.length_map]
          rfl
        simp only [dim_values, List.map_map, List.map_append, List.sum_append,
          List.length_append, List.map_cons, List.sum_cons, List.length_cons,
          List.map_nil, List.sum_nil, List.length_nil, List.length_map,
          Function.comp_def] at hE hL hR
        show v.data.length = 1
        cases hd : v.data with
        | nil =>
          rw [hE] at hL
          rw [hd] at hT hL
          simp only [List.map_nil, List.sum_nil, List.length_nil] at hL hT
          omega
        | cons c rest =>
          rw [hE] at hL
          rw [hd] at hK hT hL
          simp only [List.map_cons, List.sum_cons, List.length_cons]
            at hK hT hL ⊢
          omega
    · intro hlen
      have h1 : v.data.length = 1 := hlen
      obtain ⟨c, hc⟩ : ∃ c, v.data = [c] := by
        cases hd : v.data with
        | nil => rw [hd] at h1; simp at h1
        | cons c rest =>
          rw [hd] at h1
          simp only [List.length_cons] at h1
          have hr : rest = [] := List.length_eq_zero.mp (by omega)
          exact ⟨c, by rw [hr]⟩
      have hv : v = String.mk [c] := by
        cases v with
        | mk d =>
          have hd : d = [c] := hc
          rw [hd]
      rw [hv]
      rfl

/-- Witness for the amended C9 at the value "ab" with an empty table. -/
theorem metric_to_tag_string_chars_witness :
    metric_to_tag ⟨"r", "NS", "M", [("k", DimValue.str "ab")]⟩ "Average" [] =
      metric_to_tag
        ⟨"r", "NS", "M",
         [("k", DimValue.lst (("ab" : String).data.map
            (fun c => String.mk [c])))]⟩ "Average" [] ∧
    (metric_to_tag ⟨"r", "NS", "M", [("k", DimValue.str "ab")]⟩ "Average" [] =
        metric_to_tag ⟨"r", "NS", "M", [("k", DimValue.lst ["ab"])]⟩
          "Average" [] ↔
      ("ab" : String).length = 1) :=
  metric_to_tag_string_chars "r" "NS" "M" "k" "Average" "ab" []

/-- Mapped print lines contribute no statistics queries to a trace. -/
theorem query_pairs_map_print {β : Type} (f : β → String) (l : List β) :
    query_pairs (l.map (fun b => (Event.printLine (f b) : Event α))) = [] := by
  simp [query_pairs, List.filterMap_map, Function.comp_def, query_of]

/-- The queries of a data loop: one per parameter tuple, in order, for any
sink that emits no query events of its own. -/
theorem query_pairs_run_queries (sink : Metric × String × α × Int → List (Event α))
    (metrics : List Metric) (stats : List String) (start end_ : Int)
    (pmin : Int) (responses : Metric → String → List (α × Int))
    (hsink : ∀ dp, ∀ e ∈ sink dp, query_of e = none) :
    query_pairs (run_queries sink metrics stats start end_ pmin responses) =
      metrics.flatMap (fun m => stats.map (fun s => (m, s))) := by
  have hgen : ∀ params : List (Metric × Int × Int × String × Int),
      query_pairs (params.flatMap (fun p =>
        (get_metric_statistics p.1 p.2.1 p.2.2.1 p.2.2.2.1 p.2.2.2.2
          responses).1 ::
        (get_metric_statistics p.1 p.2.1 p.2.2.1 p.2.2.2.1 p.2.2.2.2
            responses).2.flatMap sink)) =
        params.map (fun p => (p.1, p.2.2.2.1)) := by
    intro params
    induction params with
    | nil => rfl
    | cons p rest ih =>
      rw [List.flatMap_cons, List.map_cons]
      simp only [query_pairs] at ih ⊢
      rw [List.filterMap_append, ih]
      simp only [List.filterMap_cons, get_metric_statistics, query_of]
      have hnil : List.filterMap query_of
          ((List.map (fun dp => (p.1, p.2.2.2.1, dp.1, dp.2))
              (responses p.1 p.2.2.2.1)).flatMap sink) = [] := by
        refine List.filterMap_eq_nil_iff.mpr (fun e he => ?_)
        obtain ⟨dp, _, hmem⟩ := List.mem_flatMap.mp he
        exact hsink dp e hmem
      rw [hnil]
      simp
  simp only [run_queries]
  rw [hgen]
  simp [get_data_params, List.map_flatMap, List.map_map, Function.comp_def]

/-- Claim C7: in check mode the run issues zero statistics queries and
invokes neither output sink — the trace consists exclusively of printed
lines: the resolved window, the period, the resolved name table, and the
formatted tag of every (metric, statistic) pair. -/
theorem main_check_no_queries (opts : Options) (pages : List Page)
    (ec2_env : List (String × String)) (create_result : Option InfluxError)
    (responses : Metric → String → List (α × Int))
    (parse_local : String → Int) (now : Int) (h : opts.check = true) :
    query_pairs
        (main opts pages ec2_env create_result responses parse_local now).1 =
      [] ∧
    (main opts pages ec2_env create_result responses parse_local
        now).1.all is_print_line = true ∧
    (main opts pages ec2_env create_result responses parse_local now).2 =
      none ∧
    (main opts pages ec2_env create_result responses parse_local now).1 =
      [Event.printLine ("start : " ++
          toString (get_time_range opts.time opts.interval now parse_local).1),
       Event.printLine ("end   : " ++
          toString (get_time_range opts.time opts.interval now parse_local).2),
       Event.printLine ("period: " ++ toString opts.period ++ " min"),
       Event.printLine ("ec2 names: " ++
          toString (if opts.resolve then ec2_env else []))] ++
      ((get_metrics pages).1.flatMap
          (fun m => statistics_list.map (fun s => (m, s)))).map
        (fun q => Event.printLine ("will collect metric: " ++
          metric_to_tag q.1 q.2 (if opts.resolve then ec2_env else []))) := by
  refine ⟨?_, ?_, ?_, ?_⟩
  · simp [main, h, query_pairs, query_of, List.filterMap_map,
      Function.comp_def, List.filterMap_eq_nil_iff]
  · simp only [main, h, is_print_line, List.all_map, Function.comp_def]
    simp [is_print_line]
    intro x m hm s hs hx
    subst hx
    rfl
  · simp [main, h]
  · simp [main, h]

/-- Witness for C7 on a concrete check-mode run over the three-page
catalog. -/
theorem main_check_no_queries_witness :
    opts_check.check = true ∧
    (query_pairs
        (main opts_check ex_pages [] none ex_responses (fun _ => 0) 0).1 =
      [] ∧
    (main opts_check ex_pages [] none ex_responses (fun _ => 0)
        0).1.all is_print_line = true ∧
    (main opts_check ex_pages [] none ex_responses (fun _ => 0) 0).2 =
      none ∧
    (main opts_check ex_pages [] none ex_responses (fun _ => 0) 0).1 =
      [Event.printLine ("start : " ++
          toString (get_time_range opts_check.time opts_check.interval 0
            (fun _ => 0)).1),
       Event.printLine ("end   : " ++
          toString (get_time_range opts_check.time opts_check.interval 0
            (fun _ => 0)).2),
       Event.printLine ("period: " ++ toString opts_check.period ++ " min"),
       Event.printLine ("ec2 names: " ++
          toString (if opts_check.resolve then ([] : List (String × String))
            else []))] ++
      ((get_metrics ex_pages).1.flatMap
          (fun m => statistics_list.map (fun s => (m, s)))).map
        (fun q => Event.printLine ("will collect metric: " ++
          metric_to_tag q.1 q.2
            (if opts_check.resolve then [] else [])))) :=
  ⟨rfl,
   main_check_no_queries opts_check ex_pages [] none ex_responses
     (fun _ => 0) 0 rfl⟩

/-- Claim C10: on every run that reaches the data loop, the statistics
queried are exactly Average then Sum for each metric of the catalog; the
pairs depend only on the catalog, not on any option. -/
theorem main_statistics_hardcoded (opts : Options) (pages : List Page)
    (ec2_env : List (String × String)) (create_result : Option InfluxError)
    (responses : Metric → String → List (α × Int))
    (parse_local : String → Int) (now : Int) (h1 : opts.check = false)
    (h2 : opts.output = "graphite-text" ∨
      (opts.output = "influxdb" ∧
        create_database_step create_result = none)) :
    query_pairs
        (main opts pages ec2_env create_result responses parse_local now).1 =
      (get_metrics pages).1.flatMap
        (fun m => [(m, "Average"), (m, "Sum")]) := by
  rcases h2 with h2 | ⟨h2, h3⟩
  · simp only [main, h1, h2]
    simp only [Bool.false_eq_true, if_false, if_pos]
    refine (query_pairs_run_queries _ _ _ _ _ _ _ ?_).trans ?_
    · intro dp e he
      simp only [List.mem_singleton] at he
      subst he
      rfl
    · rfl
  · have hne : (("influxdb" : String) = "graphite-text") = False := by simp
    have hyes : (("influxdb" : String) = "influxdb") = True := by simp
    simp only [main, h1, h2, h3, hne, hyes, Bool.false_eq_true, if_false,
      if_true]
    have hhead : query_pairs
        (Event.createDatabase opts.influxdb_database ::
          run_queries
            (fun dp =>
              (write_data_to_influxdb opts.region dp
                  (if opts.resolve then ec2_env else []) false).map
                Event.writePoints)
            (get_metrics pages).1 statistics_list
            (get_time_range opts.time opts.interval now parse_local).1
            (get_time_range opts.time opts.interval now parse_local).2
            opts.period responses) =
        query_pairs
          (run_queries
            (fun dp =>
              (write_data_to_influxdb opts.region dp
                  (if opts.resolve then ec2_env else []) false).map
                Event.writePoints)
            (get_metrics pages).1 statistics_list
            (get_time_range opts.time opts.interval now parse_local).1
            (get_time_range opts.time opts.interval now parse_local).2
            opts.period responses) := by
      simp [query_pairs, List.filterMap_cons, query_of]
    rw [hhead]
    refine (query_pairs_run_queries _ _ _ _ _ _ _ ?_).trans ?_
    · intro dp e he
      obtain ⟨b, _, hb⟩ := List.mem_map.mp he
      subst hb
      rfl
    · rfl

/-- Witness for C10 on a concrete default-options run over the three-page
catalog. -/
theorem main_statistics_hardcoded_witness :
    opts_text.check = false ∧
    (opts_text.output = "graphite-text" ∨
      (opts_text.output = "influxdb" ∧ create_database_step none = none)) ∧
    query_pairs
        (main opts_text ex_pages [] none ex_responses (fun _ => 0) 0).1 =
      (get_metrics ex_pages).1.flatMap
        (fun m => [(m, "Average"), (m, "Sum")]) :=
  ⟨rfl, Or.inl rfl,
   main_statistics_hardcoded opts_text ex_pages [] none ex_responses
     (fun _ => 0) 0 rfl (Or.inl rfl)⟩

end CloudwatchDump
